import Mathlib

/-!
Shallow embedding of the cgmath square-matrix library (src/src/mat.rs and
src/src/cgmath/projection.rs).

Matrices are column-major records of column vectors, exactly as in the
source (`Mat2 { x, y }`, `Mat3 { x, y, z }`, `Mat4 { x, y, z, w }`); an
element at column `c`, row `r` is `(col c).idx r`, matching `self[c][r]`.
The scalar type in the source is a generic floating-point `T: Float`; here
it is modelled by `ℚ`, the exact idealisation used throughout the spec's
algebraic properties, with the fuzzy (epsilon-tolerant) comparison kept
explicit.  Division by zero follows Lean's `x / 0 = 0` convention; every
place where that convention is load-bearing (the Gauss-Jordan pivot
divisions) exposes the divisor itself so claims about it stay faithful.
-/

/-- Modelled from the spec: the scalar trait's fixed epsilon tolerance for
fuzzy equality (`std::cmp::FuzzyEq`, an external collaborator of this
repository; spec glossary: "equality test tolerant of floating-point
rounding error within a fixed epsilon"). -/
def epsilon : ℚ := 1 / 1000000

/-- Modelled from the spec: the scalar trait's fuzzy (epsilon-tolerant)
equality, an external collaborator consumed by src/src/mat.rs. -/
def Rat.fuzzy_eq (a b : ℚ) : Bool := decide (|a - b| < epsilon)

/-- The two-component column vector (external collaborator `Vec2`). -/
structure Vec2 where
  x : ℚ
  y : ℚ
deriving DecidableEq, Repr

/-- The three-component column vector (external collaborator `Vec3`). -/
structure Vec3 where
  x : ℚ
  y : ℚ
  z : ℚ
deriving DecidableEq, Repr

/-- The four-component column vector (external collaborator `Vec4`). -/
structure Vec4 where
  x : ℚ
  y : ℚ
  z : ℚ
  w : ℚ
deriving DecidableEq, Repr

attribute [ext] Vec2 Vec3 Vec4

namespace Vec2

/-- Component access `v[i]` of the external vector collaborator. -/
def idx (v : Vec2) : Fin 2 → ℚ
  | ⟨0, _⟩ => v.x
  | ⟨_ + 1, _⟩ => v.y

/-- Modelled from the spec: the external vector collaborator's dot product
(spec §6: "Vector type (per dimension): component access, `dot`, ..."). -/
def dot (a b : Vec2) : ℚ := a.x * b.x + a.y * b.y

/-- Modelled from the spec: component-wise vector addition `add_v`. -/
def add_v (a b : Vec2) : Vec2 := ⟨a.x + b.x, a.y + b.y⟩

/-- Modelled from the spec: component-wise vector subtraction `sub_v`. -/
def sub_v (a b : Vec2) : Vec2 := ⟨a.x - b.x, a.y - b.y⟩

/-- Modelled from the spec: scalar multiply `mul_t`. -/
def mul_t (v : Vec2) (t : ℚ) : Vec2 := ⟨v.x * t, v.y * t⟩

/-- Modelled from the spec: component-wise fuzzy equality of the external
vector collaborator (delegates to the scalar's fuzzy equality). -/
def fuzzy_eq (a b : Vec2) : Bool :=
  Rat.fuzzy_eq a.x b.x && Rat.fuzzy_eq a.y b.y

/-- Write component `i` of the vector (`index_mut` of the collaborator). -/
def set (v : Vec2) (i : Fin 2) (a : ℚ) : Vec2 :=
  match i with
  | ⟨0, _⟩ => { v with x := a }
  | ⟨_ + 1, _⟩ => { v with y := a }

end Vec2

namespace Vec3

/-- Component access `v[i]` of the external vector collaborator. -/
def idx (v : Vec3) : Fin 3 → ℚ
  | ⟨0, _⟩ => v.x
  | ⟨1, _⟩ => v.y
  | ⟨_ + 2, _⟩ => v.z

/-- Modelled from the spec: the external vector collaborator's dot product. -/
def dot (a b : Vec3) : ℚ := a.x * b.x + a.y * b.y + a.z * b.z

/-- Modelled from the spec: the three-component cross product (spec §6:
"`cross` (3-component only)"). -/
def cross (a b : Vec3) : Vec3 :=
  ⟨a.y * b.z - a.z * b.y,
   a.z * b.x - a.x * b.z,
   a.x * b.y - a.y * b.x⟩

/-- Modelled from the spec: component-wise vector addition `add_v`. -/
def add_v (a b : Vec3) : Vec3 := ⟨a.x + b.x, a.y + b.y, a.z + b.z⟩

/-- Modelled from the spec: component-wise vector subtraction `sub_v`. -/
def sub_v (a b : Vec3) : Vec3 := ⟨a.x - b.x, a.y - b.y, a.z - b.z⟩

/-- Modelled from the spec: scalar multiply `mul_t`. -/
def mul_t (v : Vec3) (t : ℚ) : Vec3 := ⟨v.x * t, v.y * t, v.z * t⟩

/-- Modelled from the spec: scalar divide `div_t`. -/
def div_t (v : Vec3) (t : ℚ) : Vec3 := ⟨v.x / t, v.y / t, v.z / t⟩

/-- Modelled from the spec: component-wise fuzzy equality of the external
vector collaborator. -/
def fuzzy_eq (a b : Vec3) : Bool :=
  Rat.fuzzy_eq a.x b.x && Rat.fuzzy_eq a.y b.y && Rat.fuzzy_eq a.z b.z

/-- Write component `i` of the vector (`index_mut` of the collaborator). -/
def set (v : Vec3) (i : Fin 3) (a : ℚ) : Vec3 :=
  match i with
  | ⟨0, _⟩ => { v with x := a }
  | ⟨1, _⟩ => { v with y := a }
  | ⟨_ + 2, _⟩ => { v with z := a }

end Vec3

namespace Vec4

/-- Component access `v[i]` of the external vector collaborator. -/
def idx (v : Vec4) : Fin 4 → ℚ
  | ⟨0, _⟩ => v.x
  | ⟨1, _⟩ => v.y
  | ⟨2, _⟩ => v.z
  | ⟨_ + 3, _⟩ => v.w

/-- Modelled from the spec: the external vector collaborator's dot product. -/
def dot (a b : Vec4) : ℚ := a.x * b.x + a.y * b.y + a.z * b.z + a.w * b.w

/-- Modelled from the spec: component-wise vector addition `add_v`. -/
def add_v (a b : Vec4) : Vec4 := ⟨a.x + b.x, a.y + b.y, a.z + b.z, a.w + b.w⟩

/-- Modelled from the spec: component-wise vector subtraction `sub_v`. -/
def sub_v (a b : Vec4) : Vec4 := ⟨a.x - b.x, a.y - b.y, a.z - b.z, a.w - b.w⟩

/-- Modelled from the spec: scalar multiply `mul_t`. -/
def mul_t (v : Vec4) (t : ℚ) : Vec4 := ⟨v.x * t, v.y * t, v.z * t, v.w * t⟩

/-- Modelled from the spec: scalar divide `div_t` (also standing for the
in-place `div_self_t` used by `Mat4::inverse`). -/
def div_t (v : Vec4) (t : ℚ) : Vec4 := ⟨v.x / t, v.y / t, v.z / t, v.w / t⟩

/-- Modelled from the spec: component-wise fuzzy equality of the external
vector collaborator. -/
def fuzzy_eq (a b : Vec4) : Bool :=
  Rat.fuzzy_eq a.x b.x && Rat.fuzzy_eq a.y b.y &&
  Rat.fuzzy_eq a.z b.z && Rat.fuzzy_eq a.w b.w

/-- Write component `i` of the vector (`index_mut` of the collaborator). -/
def set (v : Vec4) (i : Fin 4) (a : ℚ) : Vec4 :=
  match i with
  | ⟨0, _⟩ => { v with x := a }
  | ⟨1, _⟩ => { v with y := a }
  | ⟨2, _⟩ => { v with z := a }
  | ⟨_ + 3, _⟩ => { v with w := a }

end Vec4

/-- The 2 x 2 column-major matrix of src/src/mat.rs (`Mat2 { x, y }`). -/
structure Mat2 where
  x : Vec2
  y : Vec2
deriving DecidableEq, Repr

attribute [ext] Mat2

namespace Mat2

/-- `Mat2::from_cols`. -/
def from_cols (c0 c1 : Vec2) : Mat2 := ⟨c0, c1⟩

/-- `Mat2::new(c0r0, c0r1, c1r0, c1r1)`: column-major construction. -/
def new (c0r0 c0r1 c1r0 c1r1 : ℚ) : Mat2 :=
  from_cols ⟨c0r0, c0r1⟩ ⟨c1r0, c1r1⟩

/-- `Mat2::col(i)` = `self[i]`: the i-th column (fields in order). -/
def col (m : Mat2) : Fin 2 → Vec2
  | ⟨0, _⟩ => m.x
  | ⟨_ + 1, _⟩ => m.y

/-- `Mat2::row(i)` = `Vec2::new(self[0][i], self[1][i])`. -/
def row (m : Mat2) (i : Fin 2) : Vec2 :=
  ⟨(m.col 0).idx i, (m.col 1).idx i⟩

/-- `Mat2::identity()`. -/
def identity : Mat2 := new 1 0 0 1

/-- `Mat2::zero()`. -/
def zero : Mat2 := new 0 0 0 0

/-- `Mat2::mul_v(vec)`: component i is `row(i).dot(vec)`. -/
def mul_v (m : Mat2) (v : Vec2) : Vec2 :=
  ⟨(m.row 0).dot v, (m.row 1).dot v⟩

/-- `Mat2::mul_m(other)`: `Mat2::new(row0·ocol0, row1·ocol0, row0·ocol1, row1·ocol1)`. -/
def mul_m (m other : Mat2) : Mat2 :=
  new ((m.row 0).dot (other.col 0)) ((m.row 1).dot (other.col 0))
      ((m.row 0).dot (other.col 1)) ((m.row 1).dot (other.col 1))

/-- `Mat2::transpose()`. -/
def transpose (m : Mat2) : Mat2 :=
  new ((m.col 0).idx 0) ((m.col 1).idx 0)
      ((m.col 0).idx 1) ((m.col 1).idx 1)

/-- `Mat2::trace()` = `self[0][0] + self[1][1]`. -/
def trace (m : Mat2) : ℚ := (m.col 0).idx 0 + (m.col 1).idx 1

/-- `Mat2::dot(other)` = `other.transpose().mul_m(self).trace()`. -/
def dot (m other : Mat2) : ℚ := (other.transpose.mul_m m).trace

/-- `Mat2::determinant()` = `self[0][0]*self[1][1] - self[1][0]*self[0][1]`. -/
def determinant (m : Mat2) : ℚ :=
  (m.col 0).idx 0 * (m.col 1).idx 1 - (m.col 1).idx 0 * (m.col 0).idx 1

/-- `Mat2::inverse()`: `None` when the determinant is fuzzy-zero, otherwise
the closed-form adjugate over the determinant. -/
def inverse (m : Mat2) : Option Mat2 :=
  let d := m.determinant
  if Rat.fuzzy_eq d 0 then none
  else some (new ((m.col 1).idx 1 / d) (-(m.col 0).idx 1 / d)
                 (-(m.col 1).idx 0 / d) ((m.col 0).idx 0 / d))

/-- `Mat2: FuzzyEq`: column-wise fuzzy comparison. -/
def fuzzy_eq (a b : Mat2) : Bool :=
  Vec2.fuzzy_eq (a.col 0) (b.col 0) && Vec2.fuzzy_eq (a.col 1) (b.col 1)

/-- `Mat2::is_identity()` = `self.fuzzy_eq(&Mat2::identity())`. -/
def is_identity (m : Mat2) : Bool := fuzzy_eq m identity

/-- `Mat2::is_rotated()` = `!self.fuzzy_eq(&Mat2::identity())`. -/
def is_rotated (m : Mat2) : Bool := !(fuzzy_eq m identity)

/-- `Mat2::is_invertible()` = `!self.determinant().fuzzy_eq(&0)`. -/
def is_invertible (m : Mat2) : Bool := !(Rat.fuzzy_eq m.determinant 0)

/-- Replace column `i` (the effect of writing through `col_mut(i)`). -/
def setCol (m : Mat2) (i : Fin 2) (c : Vec2) : Mat2 :=
  match i with
  | ⟨0, _⟩ => { m with x := c }
  | ⟨_ + 1, _⟩ => { m with y := c }

/-- Write the element at column `c`, row `r` (`col_mut(c).index_mut(r)`). -/
def setElem (m : Mat2) (c r : Fin 2) (a : ℚ) : Mat2 :=
  m.setCol c ((m.col c).set r a)

/-- `util::swap(col_mut(c1).index_mut(r1), col_mut(c2).index_mut(r2))`:
exchange the two addressed elements. -/
def swapElems (m : Mat2) (c1 r1 c2 r2 : Fin 2) : Mat2 :=
  let a := (m.col c1).idx r1
  let b := (m.col c2).idx r2
  (m.setElem c1 r1 b).setElem c2 r2 a

/-- `Mat2::transpose_self()`: the source's exact swap sequence
(swap (0,1)-(1,0), then swap (1,0)-(0,1)). -/
def transpose_self (m : Mat2) : Mat2 :=
  (m.swapElems 0 1 1 0).swapElems 1 0 0 1

/-- `Mat2::invert_self()`: sets self to `inverse()` when it exists and
fails fatally otherwise; the fatal failure is modelled as `Except.error`
with the source's message. -/
def invert_self (m : Mat2) : Except String Mat2 :=
  match m.inverse with
  | some k => Except.ok k
  | none => Except.error "Couldn't invert the matrix!"

end Mat2

/-- The 3 x 3 column-major matrix of src/src/mat.rs (`Mat3 { x, y, z }`). -/
structure Mat3 where
  x : Vec3
  y : Vec3
  z : Vec3
deriving DecidableEq, Repr

attribute [ext] Mat3

namespace Mat3

/-- `Mat3::from_cols`. -/
def from_cols (c0 c1 c2 : Vec3) : Mat3 := ⟨c0, c1, c2⟩

/-- `Mat3::new(c0r0, ..., c2r2)`: column-major construction. -/
def new (c0r0 c0r1 c0r2 c1r0 c1r1 c1r2 c2r0 c2r1 c2r2 : ℚ) : Mat3 :=
  from_cols ⟨c0r0, c0r1, c0r2⟩ ⟨c1r0, c1r1, c1r2⟩ ⟨c2r0, c2r1, c2r2⟩

/-- `Mat3::col(i)` = `self[i]`. -/
def col (m : Mat3) : Fin 3 → Vec3
  | ⟨0, _⟩ => m.x
  | ⟨1, _⟩ => m.y
  | ⟨_ + 2, _⟩ => m.z

/-- `Mat3::row(i)` = `Vec3::new(self[0][i], self[1][i], self[2][i])`. -/
def row (m : Mat3) (i : Fin 3) : Vec3 :=
  ⟨(m.col 0).idx i, (m.col 1).idx i, (m.col 2).idx i⟩

/-- `Mat3::identity()`. -/
def identity : Mat3 := new 1 0 0 0 1 0 0 0 1

/-- `Mat3::zero()`. -/
def zero : Mat3 := new 0 0 0 0 0 0 0 0 0

/-- `Mat3::mul_v(vec)`: component i is `row(i).dot(vec)`. -/
def mul_v (m : Mat3) (v : Vec3) : Vec3 :=
  ⟨(m.row 0).dot v, (m.row 1).dot v, (m.row 2).dot v⟩

/-- `Mat3::mul_m(other)`: entry (col i, row j) is `row(j).dot(other.col(i))`. -/
def mul_m (m other : Mat3) : Mat3 :=
  new ((m.row 0).dot (other.col 0)) ((m.row 1).dot (other.col 0)) ((m.row 2).dot (other.col 0))
      ((m.row 0).dot (other.col 1)) ((m.row 1).dot (other.col 1)) ((m.row 2).dot (other.col 1))
      ((m.row 0).dot (other.col 2)) ((m.row 1).dot (other.col 2)) ((m.row 2).dot (other.col 2))

/-- `Mat3::transpose()`. -/
def transpose (m : Mat3) : Mat3 :=
  new ((m.col 0).idx 0) ((m.col 1).idx 0) ((m.col 2).idx 0)
      ((m.col 0).idx 1) ((m.col 1).idx 1) ((m.col 2).idx 1)
      ((m.col 0).idx 2) ((m.col 1).idx 2) ((m.col 2).idx 2)

/-- `Mat3::trace()` = `self[0][0] + self[1][1] + self[2][2]`. -/
def trace (m : Mat3) : ℚ :=
  (m.col 0).idx 0 + (m.col 1).idx 1 + (m.col 2).idx 2

/-- `Mat3::dot(other)` = `other.transpose().mul_m(self).trace()`. -/
def dot (m other : Mat3) : ℚ := (other.transpose.mul_m m).trace

/-- `Mat3::determinant()` = `self.col(0).dot(&self.col(1).cross(&self.col(2)))`:
the scalar triple product. -/
def determinant (m : Mat3) : ℚ :=
  (m.col 0).dot ((m.col 1).cross (m.col 2))

/-- `Mat3::inverse()`: `None` when the determinant is fuzzy-zero, otherwise
the cross-product adjugate columns divided by the determinant, transposed. -/
def inverse (m : Mat3) : Option Mat3 :=
  let d := m.determinant
  if Rat.fuzzy_eq d 0 then none
  else some ((from_cols (((m.col 1).cross (m.col 2)).div_t d)
                        (((m.col 2).cross (m.col 0)).div_t d)
                        (((m.col 0).cross (m.col 1)).div_t d)).transpose)

/-- `Mat3: FuzzyEq`: column-wise fuzzy comparison. -/
def fuzzy_eq (a b : Mat3) : Bool :=
  Vec3.fuzzy_eq (a.col 0) (b.col 0) && Vec3.fuzzy_eq (a.col 1) (b.col 1) &&
  Vec3.fuzzy_eq (a.col 2) (b.col 2)

/-- `Mat3::is_identity()` = `self.fuzzy_eq(&Mat3::identity())`. -/
def is_identity (m : Mat3) : Bool := fuzzy_eq m identity

/-- `Mat3::is_rotated()` = `!self.fuzzy_eq(&Mat3::identity())`. -/
def is_rotated (m : Mat3) : Bool := !(fuzzy_eq m identity)

/-- `Mat3::is_invertible()` = `!self.determinant().fuzzy_eq(&0)`. -/
def is_invertible (m : Mat3) : Bool := !(Rat.fuzzy_eq m.determinant 0)

/-- Replace column `i` (the effect of writing through `col_mut(i)`). -/
def setCol (m : Mat3) (i : Fin 3) (c : Vec3) : Mat3 :=
  match i with
  | ⟨0, _⟩ => { m with x := c }
  | ⟨1, _⟩ => { m with y := c }
  | ⟨_ + 2, _⟩ => { m with z := c }

/-- Write the element at column `c`, row `r` (`col_mut(c).index_mut(r)`). -/
def setElem (m : Mat3) (c r : Fin 3) (a : ℚ) : Mat3 :=
  m.setCol c ((m.col c).set r a)

/-- `util::swap` of the two addressed elements. -/
def swapElems (m : Mat3) (c1 r1 c2 r2 : Fin 3) : Mat3 :=
  let a := (m.col c1).idx r1
  let b := (m.col c2).idx r2
  (m.setElem c1 r1 b).setElem c2 r2 a

/-- `Mat3::transpose_self()`: the source's exact swap sequence, in order:
(0,1)-(1,0), (0,2)-(2,0), (1,0)-(0,1), (1,2)-(2,1), (2,0)-(0,2), (2,1)-(1,2). -/
def transpose_self (m : Mat3) : Mat3 :=
  (((((m.swapElems 0 1 1 0).swapElems 0 2 2 0).swapElems 1 0 0 1).swapElems
      1 2 2 1).swapElems 2 0 0 2).swapElems 2 1 1 2

/-- `Mat3::invert_self()`: fatal failure modelled as `Except.error`. -/
def invert_self (m : Mat3) : Except String Mat3 :=
  match m.inverse with
  | some k => Except.ok k
  | none => Except.error "Couldn't invert the matrix!"

/-- `Mat3::from_axis_angle(axis, theta)`.  The trigonometry lives in the
external scalar collaborator (spec §1 places it out of scope), so the two
values the source computes from the angle, `c = cos(theta.to_radians())`
and `s = sin(theta.to_radians())`, are taken here as the scalar arguments
`c` and `s`; the nine entries are the source's exact expressions in
`c`, `s`, `1 - c` and the axis components. -/
def from_axis_angle (axis : Vec3) (c s : ℚ) : Mat3 :=
  let x := axis.x
  let y := axis.y
  let z := axis.z
  new ((1 - c) * x * x + c)     ((1 - c) * x * y + s * z) ((1 - c) * x * z - s * y)
      ((1 - c) * x * y - s * z) ((1 - c) * y * y + c)     ((1 - c) * y * z + s * x)
      ((1 - c) * x * z + s * y) ((1 - c) * y * z - s * x) ((1 - c) * z * z + c)

end Mat3

/-- The 4 x 4 column-major matrix of src/src/mat.rs (`Mat4 { x, y, z, w }`). -/
structure Mat4 where
  x : Vec4
  y : Vec4
  z : Vec4
  w : Vec4
deriving DecidableEq, Repr

attribute [ext] Mat4

namespace Mat4

/-- `Mat4::from_cols`. -/
def from_cols (c0 c1 c2 c3 : Vec4) : Mat4 := ⟨c0, c1, c2, c3⟩

/-- `Mat4::new(c0r0, ..., c3r3)`: column-major construction. -/
def new (c0r0 c0r1 c0r2 c0r3 c1r0 c1r1 c1r2 c1r3
         c2r0 c2r1 c2r2 c2r3 c3r0 c3r1 c3r2 c3r3 : ℚ) : Mat4 :=
  from_cols ⟨c0r0, c0r1, c0r2, c0r3⟩ ⟨c1r0, c1r1, c1r2, c1r3⟩
            ⟨c2r0, c2r1, c2r2, c2r3⟩ ⟨c3r0, c3r1, c3r2, c3r3⟩

/-- `Mat4::col(i)` = `self[i]`. -/
def col (m : Mat4) : Fin 4 → Vec4
  | ⟨0, _⟩ => m.x
  | ⟨1, _⟩ => m.y
  | ⟨2, _⟩ => m.z
  | ⟨_ + 3, _⟩ => m.w

/-- `Mat4::row(i)`. -/
def row (m : Mat4) (i : Fin 4) : Vec4 :=
  ⟨(m.col 0).idx i, (m.col 1).idx i, (m.col 2).idx i, (m.col 3).idx i⟩

/-- `Mat4::identity()`. -/
def identity : Mat4 :=
  new 1 0 0 0  0 1 0 0  0 0 1 0  0 0 0 1

/-- `Mat4::zero()`. -/
def zero : Mat4 :=
  new 0 0 0 0  0 0 0 0  0 0 0 0  0 0 0 0

/-- `Mat4::mul_v(vec)`: component i is `row(i).dot(vec)`. -/
def mul_v (m : Mat4) (v : Vec4) : Vec4 :=
  ⟨(m.row 0).dot v, (m.row 1).dot v, (m.row 2).dot v, (m.row 3).dot v⟩

/-- `Mat4::mul_m(other)`: entry (col i, row j) is `row(j).dot(other.col(i))`. -/
def mul_m (m other : Mat4) : Mat4 :=
  new ((m.row 0).dot (other.col 0)) ((m.row 1).dot (other.col 0)) ((m.row 2).dot (other.col 0)) ((m.row 3).dot (other.col 0))
      ((m.row 0).dot (other.col 1)) ((m.row 1).dot (other.col 1)) ((m.row 2).dot (other.col 1)) ((m.row 3).dot (other.col 1))
      ((m.row 0).dot (other.col 2)) ((m.row 1).dot (other.col 2)) ((m.row 2).dot (other.col 2)) ((m.row 3).dot (other.col 2))
      ((m.row 0).dot (other.col 3)) ((m.row 1).dot (other.col 3)) ((m.row 2).dot (other.col 3)) ((m.row 3).dot (other.col 3))

/-- `Mat4::transpose()`. -/
def transpose (m : Mat4) : Mat4 :=
  new ((m.col 0).idx 0) ((m.col 1).idx 0) ((m.col 2).idx 0) ((m.col 3).idx 0)
      ((m.col 0).idx 1) ((m.col 1).idx 1) ((m.col 2).idx 1) ((m.col 3).idx 1)
      ((m.col 0).idx 2) ((m.col 1).idx 2) ((m.col 2).idx 2) ((m.col 3).idx 2)
      ((m.col 0).idx 3) ((m.col 1).idx 3) ((m.col 2).idx 3) ((m.col 3).idx 3)

/-- `Mat4::trace()`. -/
def trace (m : Mat4) : ℚ :=
  (m.col 0).idx 0 + (m.col 1).idx 1 + (m.col 2).idx 2 + (m.col 3).idx 3

/-- `Mat4::dot(other)` = `other.transpose().mul_m(self).trace()`. -/
def dot (m other : Mat4) : ℚ := (other.transpose.mul_m m).trace

/-- `Mat4::determinant()`: cofactor expansion along row 0, each minor built
with `Mat3::new` exactly as in the source. -/
def determinant (m : Mat4) : ℚ :=
  (m.col 0).idx 0 * (Mat3.new ((m.col 1).idx 1) ((m.col 2).idx 1) ((m.col 3).idx 1)
                              ((m.col 1).idx 2) ((m.col 2).idx 2) ((m.col 3).idx 2)
                              ((m.col 1).idx 3) ((m.col 2).idx 3) ((m.col 3).idx 3)).determinant -
  (m.col 1).idx 0 * (Mat3.new ((m.col 0).idx 1) ((m.col 2).idx 1) ((m.col 3).idx 1)
                              ((m.col 0).idx 2) ((m.col 2).idx 2) ((m.col 3).idx 2)
                              ((m.col 0).idx 3) ((m.col 2).idx 3) ((m.col 3).idx 3)).determinant +
  (m.col 2).idx 0 * (Mat3.new ((m.col 0).idx 1) ((m.col 1).idx 1) ((m.col 3).idx 1)
                              ((m.col 0).idx 2) ((m.col 1).idx 2) ((m.col 3).idx 2)
                              ((m.col 0).idx 3) ((m.col 1).idx 3) ((m.col 3).idx 3)).determinant -
  (m.col 3).idx 0 * (Mat3.new ((m.col 0).idx 1) ((m.col 1).idx 1) ((m.col 2).idx 1)
                              ((m.col 0).idx 2) ((m.col 1).idx 2) ((m.col 2).idx 2)
                              ((m.col 0).idx 3) ((m.col 1).idx 3) ((m.col 2).idx 3)).determinant

/-- Replace column `i` (the effect of writing through `col_mut(i)`). -/
def setCol (m : Mat4) (i : Fin 4) (c : Vec4) : Mat4 :=
  match i with
  | ⟨0, _⟩ => { m with x := c }
  | ⟨1, _⟩ => { m with y := c }
  | ⟨2, _⟩ => { m with z := c }
  | ⟨_ + 3, _⟩ => { m with w := c }

/-- `Mat4::swap_cols(a, b)`: exchange columns `a` and `b`. -/
def swap_cols (m : Mat4) (a b : Fin 4) : Mat4 :=
  (m.setCol a (m.col b)).setCol b (m.col a)

/-- The pivot search of `Mat4::inverse`: starting from `i1 = j`, scan
`i` over `[j+1, 4)` and keep `i` whenever `|A[j][i]| > |A[j][i1]|`
(entries of column `j`, rows below the diagonal). -/
def pivotRow (A : Mat4) (j : Fin 4) : Fin 4 :=
  ((List.finRange 4).filter (fun i => j < i)).foldl
    (fun i1 i => if |(A.col j).idx i| > |(A.col j).idx i1| then i else i1) j

/-- One pivot step `j` of the Gauss-Jordan loop in `Mat4::inverse`, acting
on the working pair `(A, I)`: swap columns `i1` and `j` in both, divide
column `j` of both by `A[j][j]`, then for every other column `i` subtract
`col j * A[i][j]` from column `i` of both. -/
def gjStep (st : Mat4 × Mat4) (j : Fin 4) : Mat4 × Mat4 :=
  let i1 := pivotRow st.1 j
  let A1 := st.1.swap_cols i1 j
  let I1 := st.2.swap_cols i1 j
  let p := (A1.col j).idx j
  let I2 := I1.setCol j ((I1.col j).div_t p)
  let A2 := A1.setCol j ((A1.col j).div_t p)
  (List.finRange 4).foldl
    (fun st i =>
      if i = j then st
      else
        let t := (st.1.col i).idx j
        let I3 := st.2.setCol i ((st.2.col i).sub_v ((st.2.col j).mul_t t))
        let A3 := st.1.setCol i ((st.1.col i).sub_v ((st.1.col j).mul_t t))
        (A3, I3))
    (A2, I2)

/-- The four pivot steps of `Mat4::inverse`, starting from the matrix
augmented with the identity. -/
def gjElim (m : Mat4) : Mat4 × Mat4 :=
  (List.finRange 4).foldl gjStep (m, identity)

/-- The working pair `(A, I)` after the first `j` pivot steps. -/
def gjPartial (m : Mat4) (j : Nat) : Mat4 × Mat4 :=
  ((List.finRange 4).take j).foldl gjStep (m, identity)

/-- The divisor used by the two `div_self_t` calls at pivot step `j` of
`Mat4::inverse`: the diagonal entry `A[j][j]` read after the column swap
of that step. -/
def gjDivisor (m : Mat4) (j : Fin 4) : ℚ :=
  let A := (gjPartial m j).1
  let A1 := A.swap_cols (pivotRow A j) j
  (A1.col j).idx j

/-- `Mat4::inverse()`: `None` when the determinant is fuzzy-zero, otherwise
the identity accumulator left by the Gauss-Jordan elimination. -/
def inverse (m : Mat4) : Option Mat4 :=
  if Rat.fuzzy_eq m.determinant 0 then none
  else some (gjElim m).2

/-- `Mat4: FuzzyEq`: column-wise fuzzy comparison. -/
def fuzzy_eq (a b : Mat4) : Bool :=
  Vec4.fuzzy_eq (a.col 0) (b.col 0) && Vec4.fuzzy_eq (a.col 1) (b.col 1) &&
  Vec4.fuzzy_eq (a.col 2) (b.col 2) && Vec4.fuzzy_eq (a.col 3) (b.col 3)

/-- `Mat4::is_identity()` = `self.fuzzy_eq(&Mat4::identity())`. -/
def is_identity (m : Mat4) : Bool := fuzzy_eq m identity

/-- `Mat4::is_rotated()` = `!self.fuzzy_eq(&Mat4::identity())`. -/
def is_rotated (m : Mat4) : Bool := !(fuzzy_eq m identity)

/-- `Mat4::is_invertible()` = `!self.determinant().fuzzy_eq(&0)`. -/
def is_invertible (m : Mat4) : Bool := !(Rat.fuzzy_eq m.determinant 0)

/-- Write the element at column `c`, row `r` (`col_mut(c).index_mut(r)`). -/
def setElem (m : Mat4) (c r : Fin 4) (a : ℚ) : Mat4 :=
  m.setCol c ((m.col c).set r a)

/-- `util::swap` of the two addressed elements. -/
def swapElems (m : Mat4) (c1 r1 c2 r2 : Fin 4) : Mat4 :=
  let a := (m.col c1).idx r1
  let b := (m.col c2).idx r2
  (m.setElem c1 r1 b).setElem c2 r2 a

/-- `Mat4::transpose_self()`: the source's exact swap sequence, in order:
(0,1)-(1,0), (0,2)-(2,0), (0,3)-(3,0), (1,0)-(0,1), (1,2)-(2,1),
(1,3)-(3,1), (2,0)-(0,2), (2,1)-(1,2), (2,3)-(3,2), (3,0)-(0,3),
(3,1)-(1,3), (3,2)-(2,3). -/
def transpose_self (m : Mat4) : Mat4 :=
  (((((((((((m.swapElems 0 1 1 0).swapElems 0 2 2 0).swapElems 0 3 3 0).swapElems
      1 0 0 1).swapElems 1 2 2 1).swapElems 1 3 3 1).swapElems
      2 0 0 2).swapElems 2 1 1 2).swapElems 2 3 3 2).swapElems
      3 0 0 3).swapElems 3 1 1 3).swapElems 3 2 2 3

/-- `Mat4::invert_self()`: fatal failure modelled as `Except.error`. -/
def invert_self (m : Mat4) : Except String Mat4 :=
  match m.inverse with
  | some k => Except.ok k
  | none => Except.error "Couldn't invert the matrix!"

end Mat4

/-- `ortho(left, right, bottom, top, near, far)` from
src/src/cgmath/projection.rs: the parallel projection matrix, built with
`Mat4::new` from the source's sixteen `c{col}r{row}` values. -/
def ortho (left right bottom top near far : ℚ) : Mat4 :=
  let c0r0 := 2 / (right - left)
  let c0r1 : ℚ := 0
  let c0r2 : ℚ := 0
  let c0r3 : ℚ := 0
  let c1r0 : ℚ := 0
  let c1r1 := 2 / (top - bottom)
  let c1r2 : ℚ := 0
  let c1r3 : ℚ := 0
  let c2r0 : ℚ := 0
  let c2r1 : ℚ := 0
  let c2r2 := -2 / (far - near)
  let c2r3 : ℚ := 0
  let c3r0 := -(right + left) / (right - left)
  let c3r1 := -(top + bottom) / (top - bottom)
  let c3r2 := -(far + near) / (far - near)
  let c3r3 : ℚ := 1
  Mat4.new c0r0 c0r1 c0r2 c0r3
           c1r0 c1r1 c1r2 c1r3
           c2r0 c2r1 c2r2 c2r3
           c3r0 c3r1 c3r2 c3r3

/-! Accessor lemmas: column and component access at the four literal
indices, used to unfold the definitions above in the proofs. -/

theorem vec2_idx_zero (v : Vec2) : v.idx 0 = v.x := rfl

theorem vec2_idx_one (v : Vec2) : v.idx 1 = v.y := rfl

theorem vec3_idx_zero (v : Vec3) : v.idx 0 = v.x := rfl

theorem vec3_idx_one (v : Vec3) : v.idx 1 = v.y := rfl

theorem vec3_idx_two (v : Vec3) : v.idx 2 = v.z := rfl

theorem vec4_idx_zero (v : Vec4) : v.idx 0 = v.x := rfl

theorem vec4_idx_one (v : Vec4) : v.idx 1 = v.y := rfl

theorem vec4_idx_two (v : Vec4) : v.idx 2 = v.z := rfl

theorem vec4_idx_three (v : Vec4) : v.idx 3 = v.w := rfl

theorem mat2_col_zero (m : Mat2) : m.col 0 = m.x := rfl

theorem mat2_col_one (m : Mat2) : m.col 1 = m.y := rfl

theorem mat3_col_zero (m : Mat3) : m.col 0 = m.x := rfl

theorem mat3_col_one (m : Mat3) : m.col 1 = m.y := rfl

theorem mat3_col_two (m : Mat3) : m.col 2 = m.z := rfl

theorem mat4_col_zero (m : Mat4) : m.col 0 = m.x := rfl

theorem mat4_col_one (m : Mat4) : m.col 1 = m.y := rfl

theorem mat4_col_two (m : Mat4) : m.col 2 = m.z := rfl

theorem mat4_col_three (m : Mat4) : m.col 3 = m.w := rfl

/-- Claim C1: the spec says `transpose_self` realises the transpose in place
through pairwise off-diagonal swaps, and the trait documentation of
`MutableMatrix::transpose_self` says "Sets the matrix to its transpose".
In fact the source's swap sequence touches every unordered off-diagonal
pair twice (once from below the diagonal and once from above), so the two
swaps cancel and `transpose_self` leaves the matrix unchanged in all three
dimensions; on the non-symmetric `Mat2::new(1,2,3,4)` the result differs
from the transpose. -/
theorem transpose_self_leaves_matrix_unchanged :
    (∀ m : Mat2, m.transpose_self = m) ∧
    (∀ m : Mat3, m.transpose_self = m) ∧
    (∀ m : Mat4, m.transpose_self = m) ∧
    Mat2.transpose_self (Mat2.new 1 2 3 4) ≠
      Mat2.transpose (Mat2.new 1 2 3 4) := by
  refine ⟨fun m => rfl, fun m => rfl, fun m => ?_, by decide⟩
  cases m
  rfl

/-- The failing input for the Gauss-Jordan pivot bug: an invertible matrix
(determinant 1) whose column 0 has its largest-magnitude entry in row 1,
so `Mat4::inverse` picks `i1 = 1` and then swaps columns 1 and 0, moving
the zero entry `A[1][0]` onto the diagonal. -/
def pivotBugInput : Mat4 :=
  Mat4.new 1 5 0 0  0 1 0 0  0 0 1 0  0 0 0 1

/-- Claim C2: the spec says the determinant pre-check makes division-by-zero
unreachable in the Gauss-Jordan elimination of `Mat4::inverse`.  It does
not: the pivot search maximises `|A[j][i]|` over rows `i` of column `j`,
but the subsequent `swap_cols(i1, j)` exchanges columns, which does not
move the found entry to the diagonal; on `pivotBugInput` (determinant 1,
not fuzzy-zero) the divisor `A[0][0]` read by the two `div_self_t` calls
of pivot step 0 is exactly zero. -/
theorem gauss_jordan_pivot_divisor_zero_despite_det_check :
    pivotBugInput.determinant = 1 ∧
    Rat.fuzzy_eq pivotBugInput.determinant 0 = false ∧
    Mat4.gjDivisor pivotBugInput 0 = 0 := by
  refine ⟨?_, ?_, ?_⟩ <;> with_unfolding_all rfl

set_option maxRecDepth 10000 in
/-- Claim C5: the spec says `M · inverse(M)` fuzzy-equals the identity whenever
`is_invertible(M)`.  For `Mat4` this fails on `pivotBugInput`: the broken
pivoting divides by zero (see `Mat4.gjDivisor`), the accumulator comes out
garbage, and the product with `M` is not fuzzy-equal to the identity (in
the source's floating-point scalar the division by zero yields
infinities/NaNs, so the product is not fuzzy-identity there either). -/
theorem mat4_mul_inverse_not_fuzzy_identity :
    Mat4.is_invertible pivotBugInput = true ∧
    Mat4.fuzzy_eq
      (pivotBugInput.mul_m ((Mat4.inverse pivotBugInput).getD Mat4.zero))
      Mat4.identity = false := by
  refine ⟨?_, ?_⟩ <;> with_unfolding_all rfl

/-- Claim C3: in every dimension, `inverse()` returns `None` exactly when
the determinant is fuzzy-equal to zero (and `Some` otherwise), and
`invert_self` sets the matrix to that inverse when it exists and fails
fatally (here: `Except.error`, never `Except.ok`) exactly when the
determinant is fuzzy-equal to zero. -/
theorem inverse_none_iff_det_fuzzy_zero :
    (∀ (m k : Mat2),
        (m.inverse = none ↔ Rat.fuzzy_eq m.determinant 0 = true) ∧
        (m.invert_self = Except.ok k ↔ m.inverse = some k) ∧
        (m.invert_self).isOk = !(Rat.fuzzy_eq m.determinant 0)) ∧
    (∀ (m k : Mat3),
        (m.inverse = none ↔ Rat.fuzzy_eq m.determinant 0 = true) ∧
        (m.invert_self = Except.ok k ↔ m.inverse = some k) ∧
        (m.invert_self).isOk = !(Rat.fuzzy_eq m.determinant 0)) ∧
    (∀ (m k : Mat4),
        (m.inverse = none ↔ Rat.fuzzy_eq m.determinant 0 = true) ∧
        (m.invert_self = Except.ok k ↔ m.inverse = some k) ∧
        (m.invert_self).isOk = !(Rat.fuzzy_eq m.determinant 0)) := by
  refine ⟨fun m k => ⟨?_, ?_, ?_⟩, fun m k => ⟨?_, ?_, ?_⟩, fun m k => ⟨?_, ?_, ?_⟩⟩
  · unfold Mat2.inverse
    cases hb : Rat.fuzzy_eq m.determinant 0 <;> simp [hb]
  · unfold Mat2.invert_self
    rcases hi : m.inverse with _ | k' <;> simp [hi]
  · unfold Mat2.invert_self Mat2.inverse
    cases hb : Rat.fuzzy_eq m.determinant 0 <;> simp [hb, Except.isOk, Except.toBool]
  · unfold Mat3.inverse
    cases hb : Rat.fuzzy_eq m.determinant 0 <;> simp [hb]
  · unfold Mat3.invert_self
    rcases hi : m.inverse with _ | k' <;> simp [hi]
  · unfold Mat3.invert_self Mat3.inverse
    cases hb : Rat.fuzzy_eq m.determinant 0 <;> simp [hb, Except.isOk, Except.toBool]
  · unfold Mat4.inverse
    cases hb : Rat.fuzzy_eq m.determinant 0 <;> simp [hb]
  · unfold Mat4.invert_self
    rcases hi : m.inverse with _ | k' <;> simp [hi]
  · unfold Mat4.invert_self Mat4.inverse
    cases hb : Rat.fuzzy_eq m.determinant 0 <;> simp [hb, Except.isOk, Except.toBool]

/-- Modelled from the spec: the "naive element-wise sum of products
sum over c,r of A[c][r]*B[c][r]" that claim C4 contrasts with `dot`,
written for the 2 x 2 case. -/
def mat2ElemSum (a b : Mat2) : ℚ :=
  (a.col 0).idx 0 * (b.col 0).idx 0 + (a.col 0).idx 1 * (b.col 0).idx 1 +
  (a.col 1).idx 0 * (b.col 1).idx 0 + (a.col 1).idx 1 * (b.col 1).idx 1

/-- Modelled from the spec: the naive element-wise sum of products for the
3 x 3 case. -/
def mat3ElemSum (a b : Mat3) : ℚ :=
  (a.col 0).idx 0 * (b.col 0).idx 0 + (a.col 0).idx 1 * (b.col 0).idx 1 +
  (a.col 0).idx 2 * (b.col 0).idx 2 +
  (a.col 1).idx 0 * (b.col 1).idx 0 + (a.col 1).idx 1 * (b.col 1).idx 1 +
  (a.col 1).idx 2 * (b.col 1).idx 2 +
  (a.col 2).idx 0 * (b.col 2).idx 0 + (a.col 2).idx 1 * (b.col 2).idx 1 +
  (a.col 2).idx 2 * (b.col 2).idx 2

/-- Modelled from the spec: the naive element-wise sum of products for the
4 x 4 case. -/
def mat4ElemSum (a b : Mat4) : ℚ :=
  (a.col 0).idx 0 * (b.col 0).idx 0 + (a.col 0).idx 1 * (b.col 0).idx 1 +
  (a.col 0).idx 2 * (b.col 0).idx 2 + (a.col 0).idx 3 * (b.col 0).idx 3 +
  (a.col 1).idx 0 * (b.col 1).idx 0 + (a.col 1).idx 1 * (b.col 1).idx 1 +
  (a.col 1).idx 2 * (b.col 1).idx 2 + (a.col 1).idx 3 * (b.col 1).idx 3 +
  (a.col 2).idx 0 * (b.col 2).idx 0 + (a.col 2).idx 1 * (b.col 2).idx 1 +
  (a.col 2).idx 2 * (b.col 2).idx 2 + (a.col 2).idx 3 * (b.col 2).idx 3 +
  (a.col 3).idx 0 * (b.col 3).idx 0 + (a.col 3).idx 1 * (b.col 3).idx 1 +
  (a.col 3).idx 2 * (b.col 3).idx 2 + (a.col 3).idx 3 * (b.col 3).idx 3

/-- Claim C4, refutation of its second half: the claim asserts that
`A.dot(B)` = trace(transpose(B)·A) differs from the naive element-wise sum
of products for some pair of matrices.  No such pair exists in any
dimension: trace(transpose(B)·A) is identically the element-wise sum, so
the asserted difference never occurs. -/
theorem dot_equals_elementwise_sum :
    (∀ a b : Mat2, a.dot b = mat2ElemSum a b) ∧
    (∀ a b : Mat3, a.dot b = mat3ElemSum a b) ∧
    (∀ a b : Mat4, a.dot b = mat4ElemSum a b) := by
  refine ⟨fun a b => ?_, fun a b => ?_, fun a b => ?_⟩
  · simp [Mat2.dot, Mat2.trace, Mat2.mul_m, Mat2.transpose, Mat2.row,
      Mat2.new, Mat2.from_cols, mat2_col_zero, mat2_col_one,
      vec2_idx_zero, vec2_idx_one, Vec2.dot, mat2ElemSum]
    ring
  · simp [Mat3.dot, Mat3.trace, Mat3.mul_m, Mat3.transpose, Mat3.row,
      Mat3.new, Mat3.from_cols, mat3_col_zero, mat3_col_one, mat3_col_two,
      vec3_idx_zero, vec3_idx_one, vec3_idx_two, Vec3.dot, mat3ElemSum]
    ring
  · simp [Mat4.dot, Mat4.trace, Mat4.mul_m, Mat4.transpose, Mat4.row,
      Mat4.new, Mat4.from_cols, mat4_col_zero, mat4_col_one, mat4_col_two,
      mat4_col_three, vec4_idx_zero, vec4_idx_one, vec4_idx_two,
      vec4_idx_three, Vec4.dot, mat4ElemSum]
    ring

/-- Claim C4 as amended: `A.dot(B)` equals trace(transpose(B)·A), and this
quantity coincides with the naive element-wise sum of products for every
pair of matrices — the Frobenius inner product computed through the trace
is the element sum, not a different quantity. -/
theorem dot_is_trace_of_transpose_product :
    (∀ a b : Mat2,
        a.dot b = (b.transpose.mul_m a).trace ∧ a.dot b = mat2ElemSum a b) ∧
    (∀ a b : Mat3,
        a.dot b = (b.transpose.mul_m a).trace ∧ a.dot b = mat3ElemSum a b) ∧
    (∀ a b : Mat4,
        a.dot b = (b.transpose.mul_m a).trace ∧ a.dot b = mat4ElemSum a b) := by
  refine ⟨fun a b => ⟨rfl, ?_⟩, fun a b => ⟨rfl, ?_⟩, fun a b => ⟨rfl, ?_⟩⟩
  · simp [Mat2.dot, Mat2.trace, Mat2.mul_m, Mat2.transpose, Mat2.row,
      Mat2.new, Mat2.from_cols, mat2_col_zero, mat2_col_one,
      vec2_idx_zero, vec2_idx_one, Vec2.dot, mat2ElemSum]
    ring
  · simp [Mat3.dot, Mat3.trace, Mat3.mul_m, Mat3.transpose, Mat3.row,
      Mat3.new, Mat3.from_cols, mat3_col_zero, mat3_col_one, mat3_col_two,
      vec3_idx_zero, vec3_idx_one, vec3_idx_two, Vec3.dot, mat3ElemSum]
    ring
  · simp [Mat4.dot, Mat4.trace, Mat4.mul_m, Mat4.transpose, Mat4.row,
      Mat4.new, Mat4.from_cols, mat4_col_zero, mat4_col_one, mat4_col_two,
      mat4_col_three, vec4_idx_zero, vec4_idx_one, vec4_idx_two,
      vec4_idx_three, Vec4.dot, mat4ElemSum]
    ring

/-- Claim C6: in every dimension the determinant of the transpose equals
the determinant exactly, even though the three dimensions compute it by
different algorithms (2x2 direct formula, 3x3 scalar triple product, 4x4
cofactor expansion along row 0). -/
theorem determinant_transpose :
    (∀ m : Mat2, m.transpose.determinant = m.determinant) ∧
    (∀ m : Mat3, m.transpose.determinant = m.determinant) ∧
    (∀ m : Mat4, m.transpose.determinant = m.determinant) := by
  refine ⟨fun m => ?_, fun m => ?_, fun m => ?_⟩
  · simp [Mat2.determinant, Mat2.transpose, Mat2.new, Mat2.from_cols,
      mat2_col_zero, mat2_col_one, vec2_idx_zero, vec2_idx_one]
    ring
  · simp [Mat3.determinant, Mat3.transpose, Mat3.new, Mat3.from_cols,
      mat3_col_zero, mat3_col_one, mat3_col_two,
      vec3_idx_zero, vec3_idx_one, vec3_idx_two, Vec3.dot, Vec3.cross]
    ring
  · simp [Mat4.determinant, Mat4.transpose, Mat4.new, Mat4.from_cols,
      mat4_col_zero, mat4_col_one, mat4_col_two, mat4_col_three,
      vec4_idx_zero, vec4_idx_one, vec4_idx_two, vec4_idx_three,
      Mat3.determinant, Mat3.new, Mat3.from_cols,
      mat3_col_zero, mat3_col_one, mat3_col_two,
      vec3_idx_zero, vec3_idx_one, vec3_idx_two, Vec3.dot, Vec3.cross]
    ring

/-- Claim C7: `ortho(l,r,b,t,n,f)` returns the 4x4 matrix with
col0 = (2/(r-l),0,0,0), col1 = (0,2/(t-b),0,0), col2 = (0,0,-2/(f-n),0),
col3 = (-(r+l)/(r-l), -(t+b)/(t-b), -(f+n)/(f-n), 1); in particular
`ortho(0,2,0,2,0,2)` is the matrix with columns (1,0,0,0), (0,1,0,0),
(0,0,-1,0), (-1,-1,-1,1). -/
theorem ortho_matrix_columns :
    (∀ l r b t n f : ℚ,
        (ortho l r b t n f).col 0 = ⟨2 / (r - l), 0, 0, 0⟩ ∧
        (ortho l r b t n f).col 1 = ⟨0, 2 / (t - b), 0, 0⟩ ∧
        (ortho l r b t n f).col 2 = ⟨0, 0, -2 / (f - n), 0⟩ ∧
        (ortho l r b t n f).col 3 =
          ⟨-(r + l) / (r - l), -(t + b) / (t - b), -(f + n) / (f - n), 1⟩) ∧
    ortho 0 2 0 2 0 2 =
      Mat4.new 1 0 0 0  0 1 0 0  0 0 (-1) 0  (-1) (-1) (-1) 1 := by
  exact ⟨fun l r b t n f => ⟨rfl, rfl, rfl, rfl⟩, by with_unfolding_all rfl⟩

/-- Claim C8: the rotation matrix `Mat3::from_axis_angle` for the unit
axis (0,0,1) and angle 90 degrees, applied through `mul_v` to (1,0,0),
yields (0,1,0) — here exactly, hence also up to epsilon.  The angle
conversion and trigonometry live in external collaborators (spec §1), so
the first two conjuncts record their exact values at 90 degrees:
cos(90·π/180) = 0 and sin(90·π/180) = 1, which are the scalar arguments
`c` and `s` passed to the embedded `from_axis_angle`. -/
theorem from_axis_angle_z_quarter_turn :
    Real.cos (90 * Real.pi / 180) = 0 ∧
    Real.sin (90 * Real.pi / 180) = 1 ∧
    (Mat3.from_axis_angle ⟨0, 0, 1⟩ 0 1).mul_v ⟨1, 0, 0⟩ = ⟨0, 1, 0⟩ ∧
    Vec3.fuzzy_eq ((Mat3.from_axis_angle ⟨0, 0, 1⟩ 0 1).mul_v ⟨1, 0, 0⟩)
      ⟨0, 1, 0⟩ = true := by
  refine ⟨?_, ?_, by with_unfolding_all rfl, by with_unfolding_all rfl⟩
  · rw [show (90 : ℝ) * Real.pi / 180 = Real.pi / 2 by ring]
    exact Real.cos_pi_div_two
  · rw [show (90 : ℝ) * Real.pi / 180 = Real.pi / 2 by ring]
    exact Real.sin_pi_div_two

/-- Claim C9: in every dimension, `M.mul_m(identity())` equals `M` exactly
and `M.mul_m(zero())` equals `zero()` exactly. -/
theorem mul_identity_mul_zero :
    (∀ m : Mat2, m.mul_m Mat2.identity = m ∧ m.mul_m Mat2.zero = Mat2.zero) ∧
    (∀ m : Mat3, m.mul_m Mat3.identity = m ∧ m.mul_m Mat3.zero = Mat3.zero) ∧
    (∀ m : Mat4, m.mul_m Mat4.identity = m ∧ m.mul_m Mat4.zero = Mat4.zero) := by
  refine ⟨fun m => ⟨?_, ?_⟩, fun m => ⟨?_, ?_⟩, fun m => ⟨?_, ?_⟩⟩
  · ext <;>
      simp [Mat2.mul_m, Mat2.identity, Mat2.row, Mat2.new, Mat2.from_cols,
        mat2_col_zero, mat2_col_one, vec2_idx_zero, vec2_idx_one, Vec2.dot]
  · ext <;>
      simp [Mat2.mul_m, Mat2.zero, Mat2.row, Mat2.new, Mat2.from_cols,
        mat2_col_zero, mat2_col_one, vec2_idx_zero, vec2_idx_one, Vec2.dot]
  · ext <;>
      simp [Mat3.mul_m, Mat3.identity, Mat3.row, Mat3.new, Mat3.from_cols,
        mat3_col_zero, mat3_col_one, mat3_col_two,
        vec3_idx_zero, vec3_idx_one, vec3_idx_two, Vec3.dot]
  · ext <;>
      simp [Mat3.mul_m, Mat3.zero, Mat3.row, Mat3.new, Mat3.from_cols,
        mat3_col_zero, mat3_col_one, mat3_col_two,
        vec3_idx_zero, vec3_idx_one, vec3_idx_two, Vec3.dot]
  · ext <;>
      simp [Mat4.mul_m, Mat4.identity, Mat4.row, Mat4.new, Mat4.from_cols,
        mat4_col_zero, mat4_col_one, mat4_col_two, mat4_col_three,
        vec4_idx_zero, vec4_idx_one, vec4_idx_two, vec4_idx_three, Vec4.dot]
  · ext <;>
      simp [Mat4.mul_m, Mat4.zero, Mat4.row, Mat4.new, Mat4.from_cols,
        mat4_col_zero, mat4_col_one, mat4_col_two, mat4_col_three,
        vec4_idx_zero, vec4_idx_one, vec4_idx_two, vec4_idx_three, Vec4.dot]

/-- Claim C10: in every dimension, `is_rotated` returns the exact boolean
negation of `is_identity` (both are the same fuzzy comparison against the
identity matrix), so the two predicates never agree: exactly one of them
holds for any matrix. -/
theorem is_rotated_negation_of_is_identity :
    (∀ m : Mat2, m.is_rotated = !m.is_identity ∧ m.is_rotated ≠ m.is_identity) ∧
    (∀ m : Mat3, m.is_rotated = !m.is_identity ∧ m.is_rotated ≠ m.is_identity) ∧
    (∀ m : Mat4, m.is_rotated = !m.is_identity ∧ m.is_rotated ≠ m.is_identity) := by
  refine ⟨fun m => ⟨rfl, ?_⟩, fun m => ⟨rfl, ?_⟩, fun m => ⟨rfl, ?_⟩⟩
  · cases hb : Mat2.fuzzy_eq m Mat2.identity <;>
      simp [Mat2.is_rotated, Mat2.is_identity, hb]
  · cases hb : Mat3.fuzzy_eq m Mat3.identity <;>
      simp [Mat3.is_rotated, Mat3.is_identity, hb]
  · cases hb : Mat4.fuzzy_eq m Mat4.identity <;>
      simp [Mat4.is_rotated, Mat4.is_identity, hb]
